import Mathlib

/-!
Shallow embedding of src/controlSerial.py (a PyQt6 differential-drive
controller speaking a text protocol over a serial port or UDP).

Modelling conventions:
* Python ints are `ℤ`; Python floats that only ever hold exact decimal
  values in the paths under study are `ℚ` (the concrete inputs used in
  theorems are chosen so that IEEE-754 evaluation and exact rational
  evaluation agree).
* Python `int(x)` applied to a float truncates toward zero: `pyInt`.
* GUI widgets are replaced by explicit state records; a Qt signal
  emission or a `QTextEdit.append` becomes an element of a returned
  list; file/socket effects become components of the returned tuple.
* Exceptions raised by the environment (serial open failure, send
  failure, port-string parse failure) are inputs to the embedded
  functions (`Option String` carrying the exception text, or a `Bool`).
  An uncaught exception escaping a method is returned as an
  `Option String` component (the raised error), never silently dropped.
-/

namespace ControlSerial

/-- Python int() conversion of a real-valued quantity: truncation toward
zero (floor for nonnegative values, ceiling for negative ones). -/
def pyInt (x : ℚ) : ℤ := if 0 ≤ x then ⌊x⌋ else ⌈x⌉

/-! ### JoystickWidget (src/controlSerial.py lines 71-145) -/

/-- Result of JoystickWidget.update_knob: the knob offset from the
center that is stored back into knob_pos, and the two clamped wheel
targets. The Euclidean distance dist = (dx^2+dy^2)^0.5 computed by the
source leaves ℚ, so it is passed as an argument; theorems about real
inputs constrain it by 0 ≤ dist and dist^2 = dx^2 + dy^2. -/
structure KnobUpdate where
  knob_dx : ℚ
  knob_dy : ℚ
  target_speedL : ℤ
  target_speedR : ℤ
  deriving DecidableEq

/-- JoystickWidget.update_knob (lines 119-134): clamp the pointer offset
to the disc of the given radius, normalize with the vertical axis
inverted, mix, truncate with int(), and clamp to [-255, 255]. -/
def update_knob (dx dy radius dist : ℚ) : KnobUpdate :=
  let scale := radius / dist
  let dx1 := if dist > radius then dx * scale else dx
  let dy1 := if dist > radius then dy * scale else dy
  let norm_x := dx1 / radius
  let norm_y := -dy1 / radius
  let speedL := pyInt ((norm_y - norm_x) * 255)
  let speedR := pyInt ((norm_y + norm_x) * 255)
  { knob_dx := dx1
    knob_dy := dy1
    target_speedL := max (-255) (min 255 speedL)
    target_speedR := max (-255) (min 255 speedR) }

/-- The helper approach(current, target, step=15) nested in
JoystickWidget.update_speeds (lines 137-142). -/
def approach (current target step : ℤ) : ℤ :=
  if current < target then min (current + step) target
  else if current > target then max (current - step) target
  else current

/-- Mutable speed state of JoystickWidget. -/
structure JoystickWidget where
  target_speedL : ℤ
  target_speedR : ℤ
  current_speedL : ℤ
  current_speedR : ℤ
  deriving DecidableEq

/-- JoystickWidget.update_speeds (lines 136-145): advance both current
speeds one ramp tick toward their targets (step 15) and emit the moved
signal with the updated pair. -/
def update_speeds (w : JoystickWidget) : JoystickWidget × (ℤ × ℤ) :=
  let cL := approach w.current_speedL w.target_speedL 15
  let cR := approach w.current_speedR w.target_speedR 15
  ({ w with current_speedL := cL, current_speedR := cR }, (cL, cR))

/-! ### Packet encoding (src/controlSerial.py lines 321-326) -/

/-- Line 324: b = 1 if brake else 0. -/
def brakeBit (brake : Bool) : ℤ := if brake then 1 else 0

/-- Lines 322-325: the comma-separated payload valL,valR,b with
valL = int(speedL * limit) and valR = int(speedR * limit). -/
def packet_data (speedL speedR : ℤ) (brake : Bool) (limit : ℚ) : String :=
  toString (pyInt ((speedL : ℚ) * limit)) ++ "," ++
    toString (pyInt ((speedR : ℚ) * limit)) ++ "," ++ toString (brakeBit brake)

/-- Line 326: the full outbound packet TX:payload with trailing newline. -/
def packet_of (speedL speedR : ℤ) (brake : Bool) (limit : ℚ) : String :=
  "TX:" ++ packet_data speedL speedR brake limit ++ "\n"

/-! ### SerialController state (src/controlSerial.py lines 148-409) -/

/-- The mutable state of SerialController that the embedded methods
read and write. current_data is flattened into speedL/speedR/brake/limit;
last_packet is None-like before the first send_data call (the source
guards it with hasattr). savedConfig models the contents of config.json
(None when the file has not been written). -/
structure Controller where
  speedL : ℤ
  speedR : ℤ
  brake : Bool
  limit : ℚ
  last_packet : Option String
  use_udp : Bool
  serial_open : Bool
  reader_running : Bool
  udp_active : Bool
  port : String
  baud : String
  ip_input : String
  port_input : String
  port_output : String
  savedConfig : Option (List String)
  deriving DecidableEq

/-- SerialController.__init__ (lines 150-162) together with the initial
UI field contents (lines 197-199); the port and baud selections stand
for whatever the combo boxes hold. -/
def initController : Controller :=
  { speedL := 0
    speedR := 0
    brake := false
    limit := 1
    last_packet := none
    use_udp := false
    serial_open := false
    reader_running := false
    udp_active := false
    port := "COM3"
    baud := "9600"
    ip_input := "127.0.0.1"
    port_input := "5005"
    port_output := "5006"
    savedConfig := none }

/-- SerialController.send_data (lines 321-348). sendErr is the outcome
of the underlying sendto/write call (none = success, some e = the OS
exception text). Returns the new state, the packet actually written to
the transport (none when deduplicated, unsent, or failed), and the
lines appended to the terminal log. -/
def send_data (st : Controller) (sendErr : Option String) :
    Controller × Option String × List String :=
  let pd := packet_data st.speedL st.speedR st.brake st.limit
  let packet := "TX:" ++ pd ++ "\n"
  if st.last_packet = some packet then (st, none, [])
  else
    let st1 := { st with last_packet := some packet }
    if st1.use_udp then
      match sendErr with
      | none => (st1, some packet, ["Отправка: " ++ pd])
      | some e => (st1, none, ["Ошибка UDP: " ++ e])
    else if st1.serial_open then
      match sendErr with
      | none => (st1, some packet, ["Отправка: " ++ pd])
      | some e => (st1, none, ["Ошибка COM: " ++ e])
    else (st1, none, [])

/-- SerialController.joystick_move (lines 386-391): store the emitted
speeds into current_data and call send_data. -/
def joystick_move (st : Controller) (l r : ℤ) (sendErr : Option String) :
    Controller × Option String × List String :=
  send_data { st with speedL := l, speedR := r } sendErr

/-- SerialController.press_brake (lines 393-396). -/
def press_brake (st : Controller) (sendErr : Option String) :
    Controller × Option String × List String :=
  send_data { st with brake := true } sendErr

/-- SerialController.release_brake (lines 398-401). -/
def release_brake (st : Controller) (sendErr : Option String) :
    Controller × Option String × List String :=
  send_data { st with brake := false } sendErr

/-- SerialController.filter_incoming (lines 350-354): the lines the
method appends to the terminal log for one inbound line. Python
line.startswith("RX:") is the character-wise prefix test on the
decoded text, embedded as List.isPrefixOf on the character lists. -/
def filter_incoming (line : String) : List String :=
  if "RX:".data.isPrefixOf line.data then [line] else []

/-- SerialController.save_settings (lines 294-302): the five keys
written to config.json, as the record of its five parameters. -/
def save_settings (port baud udp_ip udp_port udp_port_out : String) :
    List String :=
  [port, baud, udp_ip, udp_port, udp_port_out]

/-- Python call semantics for save_settings: the callee takes exactly
five positional arguments (beyond self); any other count raises
TypeError before the body runs. The effective connect_serial passes
only four, omitting udp_port_out. -/
def call_save_settings (args : List String) : Except String (List String) :=
  match args with
  | [port, baud, udp_ip, udp_port, udp_port_out] =>
      Except.ok (save_settings port baud udp_ip udp_port udp_port_out)
  | _ => Except.error
      "TypeError: save_settings missing 1 required positional argument: udp_port_out"

/-- SerialController.connect_serial: the second definition (lines
356-384), which overrides the first one (lines 249-277) because Python
keeps only the last method of a class body. openErr is the outcome of
serial.Serial(port, baud, timeout=1) (none = opened, some e = the
SerialException text). Returns the new state, the terminal log lines,
and the exception escaping the method, if any: the except clause
catches only serial.SerialException, so the TypeError raised by the
four-argument save_settings call on line 378 propagates out. -/
def connect_serial (st : Controller) (openErr : Option String) :
    Controller × List String × Option String :=
  if st.serial_open then
    ({ st with serial_open := false, reader_running := false }, ["Отключено"], none)
  else
    match openErr with
    | some e => (st, ["Ошибка подключения: " ++ e], none)
    | none =>
      let st1 := { st with serial_open := true }
      let logs := ["Подключено к " ++ st.port ++ " @ " ++ st.baud]
      match call_save_settings [st.port, st.baud, st.ip_input, st.port_input] with
      | Except.error e => (st1, logs, some e)
      | Except.ok cfg =>
          ({ st1 with savedConfig := some cfg, reader_running := true }, logs, none)

/-- Observable lifecycle actions of the UDP listener thread, in program
order: stop() on the old listener, join() on it, start() of a new one. -/
inductive UdpAction
  | stopL
  | joinL
  | startL
  deriving DecidableEq

/-- SerialController.start_udp_listener (lines 279-292): stop and join
any existing listener, then parse the RX port (portOk is the outcome of
int(self.port_output.text())) and start a fresh listener. Returns the
new state, the terminal log lines, and the listener actions performed
in order. -/
def start_udp_listener (st : Controller) (portOk : Bool) :
    Controller × List String × List UdpAction :=
  let stopped :=
    if st.udp_active then
      ({ st with udp_active := false }, [UdpAction.stopL, UdpAction.joinL])
    else (st, ([] : List UdpAction))
  let st1 := stopped.1
  let acts := stopped.2
  if portOk then
    ({ st1 with udp_active := true },
      ["UDP RX слушает " ++ st1.ip_input ++ ":" ++ st1.port_output],
      acts ++ [UdpAction.startL])
  else
    (st1, ["Ошибка: неверный порт UDP RX"], acts)

/-- SerialController.toggle_mode (lines 238-242): set use_udp from the
combo text and, when switching to UDP, (re)start the UDP listener.
Nothing else is touched: in particular the serial port and reader keep
whatever state they had. -/
def toggle_mode (st : Controller) (mode : String) (portOk : Bool) :
    Controller × List String × List UdpAction :=
  let st1 := { st with use_udp := mode == "UDP" }
  if st1.use_udp then start_udp_listener st1 portOk else (st1, [], [])

/-! ### Event-level traces of the controller -/

/-- One externally triggered controller event, carrying the outcome of
the fallible environment interaction it performs. -/
inductive Op
  | joystick (l r : ℤ) (sendErr : Option String)
  | pressBrake (sendErr : Option String)
  | releaseBrake (sendErr : Option String)
  | toggleMode (mode : String) (portOk : Bool)
  | connectSerial (openErr : Option String)

/-- Dispatch one event; the second component is the list of packets the
event actually wrote to a transport (empty or a singleton). -/
def step (st : Controller) : Op → Controller × List String
  | Op.joystick l r e =>
      let res := joystick_move st l r e
      (res.1, res.2.1.toList)
  | Op.pressBrake e =>
      let res := press_brake st e
      (res.1, res.2.1.toList)
  | Op.releaseBrake e =>
      let res := release_brake st e
      (res.1, res.2.1.toList)
  | Op.toggleMode m p => ((toggle_mode st m p).1, [])
  | Op.connectSerial e => ((connect_serial st e).1, [])

/-- Run a sequence of events, collecting the transmitted packets in
order. -/
def run (st : Controller) : List Op → Controller × List String
  | [] => (st, [])
  | op :: ops =>
      let r1 := step st op
      let r2 := run r1.1 ops
      (r2.1, r1.2 ++ r2.2)

/-! ### SerialReader (src/controlSerial.py lines 19-39) -/

/-- Outcome of one iteration of the SerialReader loop body: either the
decoded and stripped text of a line, or the text of the exception
raised by readline/decode. -/
inductive ReadResult
  | line (s : String)
  | fail (e : String)

/-- SerialReader.run (lines 27-36) over the finite sequence of read
outcomes the port produces while the thread is running: an empty line
is dropped, a nonempty line is emitted through data_received, and any
exception emits the error text and sets running to False, ending the
loop, so everything after the first exception is never read. -/
def SerialReader.run : List ReadResult → List String
  | [] => []
  | ReadResult.line s :: rest =>
      if s = "" then SerialReader.run rest else s :: SerialReader.run rest
  | ReadResult.fail e :: _rest => ["Ошибка чтения: " ++ e]

/-! ### Definitions written from the spec text, for comparison -/

/-- Modelled from the spec: the InputMapper contract of section 4.1 and
claim C5, read literally with round in the differential mix. Clamp the
offset to the disc (dist is the magnitude, passed as for update_knob),
normalize with the vertical axis inverted, then
targetL = clamp(round((ny - nx) * 255), -255, 255) and symmetrically
for targetR. -/
def inputMapper_round (dx dy radius dist : ℚ) : ℤ × ℤ :=
  let cdx := if dist ≤ radius then dx else dx * radius / dist
  let cdy := if dist ≤ radius then dy else dy * radius / dist
  let nx := cdx / radius
  let ny := -cdy / radius
  (max (-255) (min 255 (round ((ny - nx) * 255))),
    max (-255) (min 255 (round ((ny + nx) * 255))))

/-- Modelled from the spec: the same InputMapper contract with the
rounding replaced by Python int() truncation toward zero, which is the
amended form of claim C5. -/
def inputMapper_trunc (dx dy radius dist : ℚ) : ℤ × ℤ :=
  let cdx := if dist ≤ radius then dx else dx * radius / dist
  let cdy := if dist ≤ radius then dy else dy * radius / dist
  let nx := cdx / radius
  let ny := -cdy / radius
  (max (-255) (min 255 (pyInt ((ny - nx) * 255))),
    max (-255) (min 255 (pyInt ((ny + nx) * 255))))

/-- Modelled from the spec: the differential-profile encoder of section
4.3 and claim C7, read literally with round: the packet
TX:valL,valR,brakeBit with valL = round(currentL * limit) and
valR = round(currentR * limit). -/
def encode_round (speedL speedR : ℤ) (brake : Bool) (limit : ℚ) : String :=
  "TX:" ++ toString (round ((speedL : ℚ) * limit)) ++ "," ++
    toString (round ((speedR : ℚ) * limit)) ++ "," ++
    toString (brakeBit brake) ++ "\n"

/-- Modelled from the spec: the legacy single-speed packet of sections
4.3 and 6 and claim C8, S speed ;B brakeBit with a trailing newline. -/
def legacy_packet (speed : ℤ) (brake : ℤ) : String :=
  "S" ++ toString speed ++ ";B" ++ toString brake ++ "\n"

/-! ### Concrete states and traces used in the theorems -/

/-- Events that mutate the command state and then reach a serial write
that succeeds: joystick moves, brake presses and releases whose
send_data call raises no exception. -/
def goodOp : Op → Bool
  | Op.joystick _ _ e => e.isNone
  | Op.pressBrake e => e.isNone
  | Op.releaseBrake e => e.isNone
  | _ => false

/-- An event sequence refuting the claimed deduplication invariant:
connect, send a packet, disconnect, change state and call send_data
while nothing is open (which still overwrites last_packet), reconnect,
and return to the original state. -/
def c2ops : List Op :=
  [Op.connectSerial none, Op.joystick 5 0 none, Op.connectSerial none,
    Op.joystick 7 0 none, Op.connectSerial none, Op.joystick 5 0 none]

/-- A connected controller about to send TX:5,0,0 after having last
sent TX:0,0,0. -/
def c10_state : Controller :=
  { initController with
      serial_open := true
      speedL := 5
      last_packet := some "TX:0,0,0\n" }

/-! ### Evaluation helpers -/

/-- Truncation toward zero written with floors only. -/
theorem pyInt_eq (x : ℚ) : pyInt x = if 0 ≤ x then ⌊x⌋ else -⌊-x⌋ := by
  unfold pyInt
  split
  · rfl
  · rw [show x = -(-x) by ring, Int.ceil_neg, neg_neg]

/-- Truncation is the identity on integers. -/
theorem pyInt_intCast (n : ℤ) : pyInt (n : ℚ) = n := by
  rw [pyInt_eq]
  split
  · exact Int.floor_intCast n
  · rw [← Int.cast_neg, Int.floor_intCast, neg_neg]

/-- The ramp step never moves the current speed past a target that is
at or above it. -/
theorem approach_le_target (c t s : ℤ) (h : c ≤ t) : approach c t s ≤ t := by
  unfold approach
  split
  · omega
  · split <;> omega

/-- Payload at power limit 1, with the truncations evaluated away. -/
theorem packet_data_one (sl sr : ℤ) (b : Bool) :
    packet_data sl sr b 1 =
      toString sl ++ "," ++ toString sr ++ "," ++ toString (brakeBit b) := by
  unfold packet_data
  rw [mul_one, mul_one, pyInt_intCast, pyInt_intCast]

/-! ### Claim C4: inbound filtering -/

/-- Claim C4, counterexample: the claim says every line that does not
start with RX: is still forwarded to the log sink tagged as
non-telemetry, but filter_incoming appends nothing at all for such a
line: the transport-error string here is dropped, not forwarded. -/
theorem C4_counterexample :
    "UDP Error: timeout" ∉ filter_incoming "UDP Error: timeout" := by
  decide

/-- Claim C4 (amended): filter_incoming classifies a line as telemetry
exactly when it starts with the literal RX:, and displays it verbatim
in that case; every line that does not start with RX: (including
transport-error strings) is discarded, with nothing forwarded to the
log sink. -/
theorem C4_thm (line : String) :
    ("RX:".data.isPrefixOf line.data = true → filter_incoming line = [line]) ∧
    ("RX:".data.isPrefixOf line.data = false → filter_incoming line = []) := by
  unfold filter_incoming
  constructor <;> intro h <;> simp [h]

/-- Claim C4, witness: the two branches of C4_thm at concrete lines. -/
theorem C4_witness :
    "RX:".data.isPrefixOf "RX:123".data = true ∧
    filter_incoming "RX:123" = ["RX:123"] ∧
    "RX:".data.isPrefixOf "Ошибка чтения: boom".data = false ∧
    filter_incoming "Ошибка чтения: boom" = [] :=
  ⟨by decide, (C4_thm "RX:123").1 (by decide), by decide,
    (C4_thm "Ошибка чтения: boom").2 (by decide)⟩

/-! ### Claim C6: the speed ramp -/

/-- Claim C6: update_speeds advances each wheel independently through
approach with step 15; approach moves the current speed toward the
target by at most 15 and never past it (min (current+15) target when
below, max (current-15) target when above, unchanged at the target);
starting from 0 toward 255 the ramp reaches exactly 255 after exactly
17 ticks, not after 16, and never exceeds 255 at any tick. -/
theorem C6_thm :
    (∀ w : JoystickWidget,
      (update_speeds w).1.current_speedL =
          approach w.current_speedL w.target_speedL 15 ∧
        (update_speeds w).1.current_speedR =
          approach w.current_speedR w.target_speedR 15) ∧
    (∀ c t : ℤ,
      (c < t → approach c t 15 = min (c + 15) t) ∧
      (c > t → approach c t 15 = max (c - 15) t) ∧
      (c = t → approach c t 15 = c)) ∧
    (fun c => approach c 255 15)^[17] 0 = 255 ∧
    (fun c => approach c 255 15)^[16] 0 ≠ 255 ∧
    (∀ k : ℕ, (fun c => approach c 255 15)^[k] 0 ≤ 255) := by
  refine ⟨fun w => ⟨rfl, rfl⟩, ?_, by decide, by decide, ?_⟩
  · intro c t
    refine ⟨fun h => ?_, fun h => ?_, fun h => ?_⟩ <;>
      unfold approach <;> split <;> omega
  · intro k
    induction k with
    | zero => decide
    | succ n ih =>
      rw [Function.iterate_succ_apply']
      exact approach_le_target _ _ _ ih

/-- Claim C6, witness: C6_thm instantiated at a wheel below its target
and at the first ramp tick. -/
theorem C6_witness :
    (0 : ℤ) < 255 ∧ approach 0 255 15 = min (0 + 15) 255 :=
  ⟨by decide, ((C6_thm.2.1 0 255).1 (by decide))⟩

/-! ### Claim C9: the serial reader on errors -/

/-- Claim C9, counterexample: the claim says the reader reports a read
error and continues reading subsequent lines, but after an exception
the reader emits the error text and stops: the following telemetry
line RX:1 is never emitted. -/
theorem C9_counterexample :
    SerialReader.run [ReadResult.fail "boom", ReadResult.line "RX:1"] =
      ["Ошибка чтения: boom"] ∧
    "RX:1" ∉ SerialReader.run [ReadResult.fail "boom", ReadResult.line "RX:1"] := by
  exact ⟨rfl, by decide⟩

/-- Claim C9 (amended): on any read or decode error, not only a
closed-handle one, the serial reader emits the error text as a line and
terminates: every nonempty line before the first error is emitted, the
error message is the last output, and everything after the error is
never read, whatever it is. -/
theorem C9_thm (pre rest : List ReadResult) (e : String)
    (h : ∀ r ∈ pre, ∃ s, r = ReadResult.line s) :
    SerialReader.run (pre ++ ReadResult.fail e :: rest) =
      SerialReader.run pre ++ ["Ошибка чтения: " ++ e] ∧
    SerialReader.run (ReadResult.fail e :: rest) = ["Ошибка чтения: " ++ e] := by
  refine ⟨?_, rfl⟩
  induction pre with
  | nil => rfl
  | cons r pre ih =>
    obtain ⟨s, rfl⟩ := h r (List.mem_cons_self r pre)
    have ih2 := ih fun r hr => h r (List.mem_cons_of_mem _ hr)
    by_cases hs : s = ""
    · simpa [SerialReader.run, hs] using ih2
    · simpa [SerialReader.run, hs] using ih2

/-- Claim C9, witness: C9_thm on a one-line prefix followed by an error
and an unread trailing line. -/
theorem C9_witness :
    SerialReader.run [ReadResult.line "RX:a", ReadResult.fail "boom",
        ReadResult.line "x"] =
      SerialReader.run [ReadResult.line "RX:a"] ++ ["Ошибка чтения: " ++ "boom"] :=
  (C9_thm [ReadResult.line "RX:a"] [ReadResult.line "x"] "boom"
    (by intro r hr; simp at hr; exact ⟨"RX:a", hr⟩)).1

/-! ### Claim C5: the input mapping -/

/-- Claim C5, counterexample: at pointer offset (0, -20) with radius 80
the distance is 20 (a genuine Euclidean distance, as witnessed by the
first two conjuncts), the normalized mix is 63.75 on both wheels, and
the code truncates it with int() to 63, while the round required by
the claim yields 64. -/
theorem C5_counterexample :
    (0 : ℚ) ≤ 20 ∧ (20 : ℚ) ^ 2 = 0 ^ 2 + (-20) ^ 2 ∧
    (update_knob 0 (-20) 80 20).target_speedL = 63 ∧
    (update_knob 0 (-20) 80 20).target_speedR = 63 ∧
    inputMapper_round 0 (-20) 80 20 = (64, 64) ∧
    ((update_knob 0 (-20) 80 20).target_speedL,
        (update_knob 0 (-20) 80 20).target_speedR) ≠
      inputMapper_round 0 (-20) 80 20 := by
  have hL : (update_knob 0 (-20) 80 20).target_speedL = 63 := by
    norm_num [update_knob, pyInt_eq, min_def, max_def]
  have hR : (update_knob 0 (-20) 80 20).target_speedR = 63 := by
    norm_num [update_knob, pyInt_eq, min_def, max_def]
  have hS : inputMapper_round 0 (-20) 80 20 = (64, 64) := by
    norm_num [inputMapper_round, round_eq, min_def, max_def]
  exact ⟨by norm_num, by norm_num, hL, hR, hS, by rw [hL, hR, hS]; decide⟩

/-- Claim C5 (amended): for every pointer offset, radius and computed
distance, update_knob agrees with the spec formula in which the
rounding is Python int() truncation toward zero: clamp the offset to
the disc, normalize with the vertical axis inverted, mix, truncate and
clamp to [-255, 255]; offset (0, 0) yields (0, 0), and a straight-up
offset at full radius yields exactly (255, 255). -/
theorem C5_thm :
    (∀ dx dy radius dist : ℚ,
      ((update_knob dx dy radius dist).target_speedL,
        (update_knob dx dy radius dist).target_speedR) =
        inputMapper_trunc dx dy radius dist) ∧
    (update_knob 0 0 80 0).target_speedL = 0 ∧
    (update_knob 0 0 80 0).target_speedR = 0 ∧
    (update_knob 0 (-80) 80 80).target_speedL = 255 ∧
    (update_knob 0 (-80) 80 80).target_speedR = 255 := by
  refine ⟨?_, ?_, ?_, ?_, ?_⟩
  · intro dx dy radius dist
    simp only [update_knob, inputMapper_trunc]
    by_cases h : dist > radius
    · rw [if_pos h, if_pos h, if_neg (not_le.2 h), if_neg (not_le.2 h),
        mul_div_assoc dx radius dist, mul_div_assoc dy radius dist]
    · rw [if_neg h, if_neg h, if_pos (not_lt.1 h), if_pos (not_lt.1 h)]
  · norm_num [update_knob, pyInt_eq, min_def, max_def]
  · norm_num [update_knob, pyInt_eq, min_def, max_def]
  · norm_num [update_knob, pyInt_eq, min_def, max_def]
  · norm_num [update_knob, pyInt_eq, min_def, max_def]

/-- Claim C5, witness: C5_thm at the offset used in the counterexample. -/
theorem C5_witness :
    ((update_knob 0 (-20) 80 20).target_speedL,
      (update_knob 0 (-20) 80 20).target_speedR) =
      inputMapper_trunc 0 (-20) 80 20 :=
  C5_thm.1 0 (-20) 80 20

/-! ### Claim C7: the differential encoder -/

/-- Claim C7, counterexample: at speedL 13 and limit 0.2 the code
computes int(13 * 0.2) = int(2.6) = 2 while the round required by the
claim computes 3, so the encoded packet differs from the one the claim
specifies. -/
theorem C7_counterexample :
    packet_of 13 0 false (1/5) = "TX:2,0,0\n" ∧
    encode_round 13 0 false (1/5) = "TX:3,0,0\n" ∧
    packet_of 13 0 false (1/5) ≠ encode_round 13 0 false (1/5) := by
  have h2 : pyInt (((13 : ℤ) : ℚ) * (1/5)) = 2 := by rw [pyInt_eq]; norm_num
  have h0 : pyInt (((0 : ℤ) : ℚ) * (1/5)) = 0 := by rw [pyInt_eq]; norm_num
  have hr : round (((13 : ℤ) : ℚ) * (1/5)) = 3 := by norm_num [round_eq]
  have hr0 : round (((0 : ℤ) : ℚ) * (1/5)) = 0 := by norm_num [round_eq]
  have hA : packet_of 13 0 false (1/5) = "TX:2,0,0\n" := by
    unfold packet_of packet_data
    rw [h2, h0]
    rfl
  have hB : encode_round 13 0 false (1/5) = "TX:3,0,0\n" := by
    unfold encode_round
    rw [hr, hr0]
    rfl
  exact ⟨hA, hB, by rw [hA, hB]; decide⟩

/-- Claim C7 (amended): send_data encodes the command state into the
packet TX:valL,valR,brakeBit with a trailing newline, where valL and
valR are the Python int() truncations of currentL * limit and
currentR * limit and brakeBit is 1 exactly when the brake flag is set;
the encoding step never mutates the command fields (speeds, brake,
limit), and whenever send_data hands a packet to a transport it is
exactly this encoding of the state it read. -/
theorem C7_thm :
    (∀ (st : Controller) (r : Option String),
      ((send_data st r).1.speedL = st.speedL ∧
        (send_data st r).1.speedR = st.speedR ∧
        (send_data st r).1.brake = st.brake ∧
        (send_data st r).1.limit = st.limit) ∧
      (∀ p, (send_data st r).2.1 = some p →
        p = packet_of st.speedL st.speedR st.brake st.limit)) ∧
    packet_of 255 (-255) true 1 = "TX:255,-255,1\n" ∧
    packet_of 13 0 false (1/5) = "TX:2,0,0\n" := by
  refine ⟨?_, ?_, ?_⟩
  · intro st r
    by_cases h : st.last_packet =
        some ("TX:" ++ packet_data st.speedL st.speedR st.brake st.limit ++ "\n")
    · simp [send_data, h]
    · by_cases hu : st.use_udp
      · cases r <;> simp [send_data, packet_of, h, hu]
      · by_cases hs : st.serial_open
        · cases r <;> simp [send_data, packet_of, h, hu, hs]
        · simp [send_data, packet_of, h, hu, hs]
  · have h1 : pyInt (((255 : ℤ) : ℚ) * 1) = 255 := by rw [pyInt_eq]; norm_num
    have h2 : pyInt (((-255 : ℤ) : ℚ) * 1) = -255 := by rw [pyInt_eq]; norm_num
    unfold packet_of packet_data
    rw [h1, h2]
    rfl
  · have h2 : pyInt (((13 : ℤ) : ℚ) * (1/5)) = 2 := by rw [pyInt_eq]; norm_num
    have h0 : pyInt (((0 : ℤ) : ℚ) * (1/5)) = 0 := by rw [pyInt_eq]; norm_num
    unfold packet_of packet_data
    rw [h2, h0]
    rfl

/-- Claim C7, witness: C7_thm applied to a connected state whose send
succeeds, with the hypothesis that a packet was handed over discharged
concretely. -/
theorem C7_witness :
    "TX:5,0,0\n" = packet_of 5 0 false 1 :=
  (C7_thm.1 { initController with serial_open := true, speedL := 5 } none).2
    "TX:5,0,0\n"
    (by simp [send_data, initController, packet_data_one]; rfl)

/-! ### Claim C8: the legacy wire profile -/

/-- Every packet send_data builds begins with T while every legacy
packet begins with S, so no command state encodes to a legacy packet. -/
theorem packet_of_ne_legacy (sl sr : ℤ) (b : Bool) (lim : ℚ) (sp bb : ℤ) :
    packet_of sl sr b lim ≠ legacy_packet sp bb := by
  intro h
  have hd := congrArg (fun s : String => s.data.head?) h
  simp only [packet_of, legacy_packet, String.data_append] at hd
  simp at hd

/-- Claim C8, counterexample: the claim asserts a configuration exists
under which the codec emits the legacy single-speed packet, but
send_data has no profile selection at all and no command state ever
encodes to a legacy packet. -/
theorem C8_counterexample :
    ¬ ∃ (sl sr : ℤ) (b : Bool) (lim : ℚ) (sp bb : ℤ),
        packet_of sl sr b lim = legacy_packet sp bb := by
  rintro ⟨sl, sr, b, lim, sp, bb, h⟩
  exact packet_of_ne_legacy sl sr b lim sp bb h

/-- Claim C8 (amended): the codec supports only the differential
profile: every encoded packet starts with the three characters TX: and
differs from every legacy packet S speed ;B brakeBit; there is no
configuration profile in the code. -/
theorem C8_thm (sl sr : ℤ) (b : Bool) (lim : ℚ) :
    (packet_of sl sr b lim).data.take 3 = ['T', 'X', ':'] ∧
    ∀ sp bb : ℤ, packet_of sl sr b lim ≠ legacy_packet sp bb := by
  constructor
  · simp only [packet_of, String.data_append]
    rfl
  · intro sp bb
    exact packet_of_ne_legacy sl sr b lim sp bb

/-- Claim C8, witness: C8_thm at the neutral command state. -/
theorem C8_witness :
    (packet_of 0 0 false 1).data.take 3 = ['T', 'X', ':'] ∧
    packet_of 0 0 false 1 ≠ legacy_packet 0 0 :=
  ⟨(C8_thm 0 0 false 1).1, (C8_thm 0 0 false 1).2 0 0⟩

/-! ### Claim C3: persistence on successful connect -/

/-- Claim C3: the claim is right about the intent and the code is
wrong: on every successful serial open the effective connect_serial
(the second definition, which shadows the first) calls save_settings
with only four of its five required positional arguments, so Python
raises TypeError before anything is saved; the except clause catches
only SerialException, so the error escapes the method, the
configuration is not persisted, and the port is left open with no
reader started. -/
theorem C3_thm (st : Controller) (h : st.serial_open = false) :
    (connect_serial st none).2.2 =
      some "TypeError: save_settings missing 1 required positional argument: udp_port_out" ∧
    (connect_serial st none).1.savedConfig = st.savedConfig ∧
    (connect_serial st none).1.serial_open = true ∧
    (connect_serial st none).1.reader_running = st.reader_running := by
  simp [connect_serial, call_save_settings, save_settings, h]

/-- Claim C3, witness: C3_thm at the startup state: the first
successful connect already raises and persists nothing. -/
theorem C3_witness :
    initController.serial_open = false ∧
    (connect_serial initController none).2.2 =
      some "TypeError: save_settings missing 1 required positional argument: udp_port_out" ∧
    (connect_serial initController none).1.savedConfig = none :=
  ⟨rfl, (C3_thm initController rfl).1, (C3_thm initController rfl).2.1⟩

/-! ### Claim C1: transport exclusivity -/

/-- Claim C1, counterexample: connect the serial port successfully,
then switch the mode combo to UDP: toggle_mode starts the UDP listener
without stopping the serial transport, so afterwards the serial port is
still open and the UDP listener is active at the same time, violating
the claimed exclusivity. -/
theorem C1_counterexample :
    (run initController [Op.connectSerial none, Op.toggleMode "UDP" true]).1.serial_open
        = true ∧
    (run initController [Op.connectSerial none, Op.toggleMode "UDP" true]).1.udp_active
        = true := by
  constructor <;>
    simp [run, step, connect_serial, call_save_settings, toggle_mode,
      start_udp_listener, initController]

/-- Claim C1 (amended): switching the mode does not stop the previously
active transport: toggle_mode to UDP leaves the serial port and reader
exactly as they were (and, when the RX port parses, activates the UDP
listener on top of them), and toggle_mode to COM leaves the UDP
listener running; the only teardown start_udp_listener performs is of
the previous UDP listener, which it stops and joins before starting the
new one. -/
theorem C1_thm (st : Controller) (portOk : Bool) :
    ((toggle_mode st "UDP" portOk).1.serial_open = st.serial_open ∧
      (toggle_mode st "UDP" portOk).1.reader_running = st.reader_running) ∧
    (portOk = true → (toggle_mode st "UDP" portOk).1.udp_active = true) ∧
    (toggle_mode st "COM" portOk).1.udp_active = st.udp_active ∧
    (st.udp_active = true →
      (start_udp_listener st portOk).2.2.take 2 = [UdpAction.stopL, UdpAction.joinL]) := by
  refine ⟨?_, ?_, ?_, ?_⟩
  · unfold toggle_mode start_udp_listener
    by_cases h : st.udp_active <;> cases portOk <;> simp [h]
  · intro hp
    subst hp
    unfold toggle_mode start_udp_listener
    by_cases h : st.udp_active <;> simp [h]
  · unfold toggle_mode
    simp
  · intro h
    unfold start_udp_listener
    cases portOk <;> simp [h]

/-- Claim C1, witness: C1_thm on a state with both a connected serial
port and an active UDP listener, hypotheses discharged concretely. -/
theorem C1_witness :
    (toggle_mode { initController with serial_open := true, udp_active := true }
        "UDP" true).1.serial_open =
      ({ initController with serial_open := true, udp_active := true } :
        Controller).serial_open ∧
    (toggle_mode { initController with serial_open := true, udp_active := true }
        "UDP" true).1.udp_active = true ∧
    (start_udp_listener { initController with serial_open := true, udp_active := true }
        true).2.2.take 2 = [UdpAction.stopL, UdpAction.joinL] :=
  ⟨(C1_thm { initController with serial_open := true, udp_active := true } true).1.1,
    (C1_thm { initController with serial_open := true, udp_active := true } true).2.1 rfl,
    (C1_thm { initController with serial_open := true, udp_active := true } true).2.2.2 rfl⟩

/-! ### Claim C10: send failure -/

/-- Claim C10, counterexample: a connected controller whose last sent
packet was TX:0,0,0 moves to speed 5 and the serial write fails; the
error is logged and nothing is transmitted, but last_packet has already
been overwritten with the failed packet TX:5,0,0, contradicting the
claim that the state, last_packet included, is unchanged on a send
failure. -/
theorem C10_counterexample :
    (send_data c10_state (some "write failed")).2.1 = none ∧
    (send_data c10_state (some "write failed")).2.2 = ["Ошибка COM: write failed"] ∧
    (send_data c10_state (some "write failed")).1.last_packet = some "TX:5,0,0\n" ∧
    (send_data c10_state (some "write failed")).1.last_packet ≠ c10_state.last_packet := by
  refine ⟨?_, ?_, ?_, ?_⟩ <;>
    simp [send_data, c10_state, initController, packet_data_one,
      show toString (5 : ℤ) = "5" from rfl, show toString (0 : ℤ) = "0" from rfl,
      show brakeBit false = 0 from rfl]

/-- Claim C10 (amended): on a send failure the error is logged on the
matching transport and the speed, brake and limit fields are unchanged
with nothing transmitted, but last_packet is not restored: it has
already been set to the encoding of the current state before the write
was attempted, so the failed packet is suppressed, not re-attempted,
until some state change encodes differently. -/
theorem C10_thm (st : Controller) (e : String)
    (hnew : st.last_packet ≠ some (packet_of st.speedL st.speedR st.brake st.limit)) :
    (send_data st (some e)).1.speedL = st.speedL ∧
    (send_data st (some e)).1.speedR = st.speedR ∧
    (send_data st (some e)).1.brake = st.brake ∧
    (send_data st (some e)).1.limit = st.limit ∧
    (send_data st (some e)).2.1 = none ∧
    (send_data st (some e)).1.last_packet =
      some (packet_of st.speedL st.speedR st.brake st.limit) ∧
    (st.use_udp = true → (send_data st (some e)).2.2 = ["Ошибка UDP: " ++ e]) ∧
    (st.use_udp = false → st.serial_open = true →
      (send_data st (some e)).2.2 = ["Ошибка COM: " ++ e]) := by
  have hnew' : st.last_packet ≠
      some ("TX:" ++ packet_data st.speedL st.speedR st.brake st.limit ++ "\n") := hnew
  by_cases hu : st.use_udp
  · simp [send_data, packet_of, hnew', hu]
  · by_cases hs : st.serial_open
    · simp [send_data, packet_of, hnew', hu, hs]
    · simp [send_data, packet_of, hnew', hu, hs]

/-- Claim C10, witness: C10_thm at the counterexample state, its
hypothesis discharged concretely. -/
theorem C10_witness :
    (send_data c10_state (some "boom")).2.1 = none ∧
    (send_data c10_state (some "boom")).1.last_packet =
      some (packet_of c10_state.speedL c10_state.speedR c10_state.brake
        c10_state.limit) :=
  ⟨(C10_thm c10_state "boom"
      (by
        simp [c10_state, initController, packet_of, packet_data_one,
          show toString (5 : ℤ) = "5" from rfl, show toString (0 : ℤ) = "0" from rfl,
          show brakeBit false = 0 from rfl])).2.2.2.2.1,
    (C10_thm c10_state "boom"
      (by
        simp [c10_state, initController, packet_of, packet_data_one,
          show toString (5 : ℤ) = "5" from rfl, show toString (0 : ℤ) = "0" from rfl,
          show brakeBit false = 0 from rfl])).2.2.2.2.2.1⟩

/-! ### Claim C2: deduplication -/

/-- After any send_data call the command fields are unchanged and
last_packet holds the encoding of those fields, whether or not the
packet was actually transmitted. -/
theorem send_data_fields (st : Controller) (r : Option String) :
    (send_data st r).1.speedL = st.speedL ∧
    (send_data st r).1.speedR = st.speedR ∧
    (send_data st r).1.brake = st.brake ∧
    (send_data st r).1.limit = st.limit ∧
    (send_data st r).1.use_udp = st.use_udp ∧
    (send_data st r).1.serial_open = st.serial_open ∧
    (send_data st r).1.last_packet =
      some (packet_of st.speedL st.speedR st.brake st.limit) := by
  by_cases h : st.last_packet =
      some ("TX:" ++ packet_data st.speedL st.speedR st.brake st.limit ++ "\n")
  · simp [send_data, packet_of, h]
  · by_cases hu : st.use_udp
    · cases r <;> simp [send_data, packet_of, h, hu]
    · by_cases hs : st.serial_open
      · cases r <;> simp [send_data, packet_of, h, hu, hs]
      · simp [send_data, packet_of, h, hu, hs]

/-- A second send_data call with no intervening mutation transmits
nothing, whatever the two send outcomes were. -/
theorem send_data_no_resend (st : Controller) (r1 r2 : Option String) :
    (send_data (send_data st r1).1 r2).2.1 = none := by
  obtain ⟨h1, h2, h3, h4, -, -, h7⟩ := send_data_fields st r1
  set st1 := (send_data st r1).1 with hst1
  have hded : st1.last_packet =
      some ("TX:" ++ packet_data st1.speedL st1.speedR st1.brake st1.limit ++ "\n") := by
    rw [h1, h2, h3, h4]
    exact h7
  simp [send_data, hded]

/-- The state send_data moves to when it transmits: only last_packet
is replaced by the packet just encoded. -/
def sent_state (st : Controller) : Controller :=
  { st with last_packet := some (packet_of st.speedL st.speedR st.brake st.limit) }

/-- One send_data call with a successful write over an open serial
port, by cases on deduplication. -/
theorem send_data_ok (st : Controller) (hs : st.serial_open = true)
    (hu : st.use_udp = false) :
    (st.last_packet = some (packet_of st.speedL st.speedR st.brake st.limit) ∧
      send_data st none = (st, none, [])) ∨
    (st.last_packet ≠ some (packet_of st.speedL st.speedR st.brake st.limit) ∧
      send_data st none =
        (sent_state st, some (packet_of st.speedL st.speedR st.brake st.limit),
          ["Отправка: " ++ packet_data st.speedL st.speedR st.brake st.limit])) := by
  by_cases h : st.last_packet =
      some ("TX:" ++ packet_data st.speedL st.speedR st.brake st.limit ++ "\n")
  · left
    exact ⟨h, by simp [send_data, packet_of, h]⟩
  · right
    exact ⟨h, by simp [send_data, sent_state, packet_of, h, hu, hs]⟩

/-- The inductive step shared by the three mutating events: a state
mutation that preserves the transport flags and last_packet, followed
by a successful serial send, extends the distinctness chain. -/
theorem chain_cons_send (st st0 : Controller) (ops : List Op)
    (hf1 : st0.serial_open = st.serial_open)
    (hf2 : st0.use_udp = st.use_udp)
    (hf3 : st0.last_packet = st.last_packet)
    (hs : st.serial_open = true) (hu : st.use_udp = false)
    (hih : ∀ st2 : Controller, st2.serial_open = true → st2.use_udp = false →
      List.Chain' (fun a b => a ≠ b) (st2.last_packet.toList ++ (run st2 ops).2)) :
    List.Chain' (fun a b => a ≠ b)
      (st.last_packet.toList ++
        ((send_data st0 none).2.1.toList ++ (run (send_data st0 none).1 ops).2)) := by
  rcases send_data_ok st0 (hf1.trans hs) (hf2.trans hu) with ⟨hded, heq⟩ | ⟨hded, heq⟩
  · rw [heq]
    have hch := hih st0 (hf1.trans hs) (hf2.trans hu)
    rw [hf3] at hch
    simpa using hch
  · rw [heq]
    have hch := hih (sent_state st0)
      (by simpa [sent_state] using hf1.trans hs)
      (by simpa [sent_state] using hf2.trans hu)
    simp only [sent_state] at hch
    cases hlast : st.last_packet with
    | none => simpa using hch
    | some q =>
        have hne : q ≠ packet_of st0.speedL st0.speedR st0.brake st0.limit := by
          rw [hf3, hlast] at hded
          simpa using hded
        simpa using List.chain'_cons.2 ⟨hne, by simpa using hch⟩

/-- In any run made only of good events (mutations followed by
successful serial sends) from a connected, serial-mode state, the value
held in last_packet followed by the packets transmitted in order forms
a chain of pairwise-distinct neighbours. -/
theorem run_chain_aux (ops : List Op) : ∀ st : Controller,
    st.serial_open = true → st.use_udp = false →
    (∀ op ∈ ops, goodOp op = true) →
    List.Chain' (fun a b => a ≠ b) (st.last_packet.toList ++ (run st ops).2) := by
  induction ops with
  | nil =>
    intro st _ _ _
    cases h : st.last_packet <;> simp [run, h]
  | cons op ops ih =>
    intro st hs hu hgood
    have hop := hgood op (List.mem_cons_self op ops)
    have hrest : ∀ o ∈ ops, goodOp o = true :=
      fun o ho => hgood o (List.mem_cons_of_mem _ ho)
    have hih : ∀ st2 : Controller, st2.serial_open = true → st2.use_udp = false →
        List.Chain' (fun a b => a ≠ b) (st2.last_packet.toList ++ (run st2 ops).2) :=
      fun st2 h2 h3 => ih st2 h2 h3 hrest
    cases op with
    | joystick l r e =>
      simp only [goodOp, Option.isNone_iff_eq_none] at hop
      subst hop
      simp only [run, step, joystick_move]
      exact chain_cons_send st { st with speedL := l, speedR := r } ops
        rfl rfl rfl hs hu hih
    | pressBrake e =>
      simp only [goodOp, Option.isNone_iff_eq_none] at hop
      subst hop
      simp only [run, step, press_brake]
      exact chain_cons_send st { st with brake := true } ops rfl rfl rfl hs hu hih
    | releaseBrake e =>
      simp only [goodOp, Option.isNone_iff_eq_none] at hop
      subst hop
      simp only [run, step, release_brake]
      exact chain_cons_send st { st with brake := false } ops rfl rfl rfl hs hu hih
    | toggleMode m p => simp [goodOp] at hop
    | connectSerial e => simp [goodOp] at hop

/-- Claim C2, counterexample: the claim that a transmitted packet
always differs from the immediately preceding transmitted packet fails
on the code: send packet TX:5,0,0, disconnect, move the joystick while
nothing is open (send_data still overwrites last_packet with TX:7,0,0
although nothing is written), reconnect and move back: TX:5,0,0 is
transmitted again, equal to the previously transmitted packet. -/
theorem C2_counterexample :
    (run initController c2ops).2 = ["TX:5,0,0\n", "TX:5,0,0\n"] ∧
    ¬ List.Chain' (fun a b => a ≠ b) (run initController c2ops).2 := by
  have h : (run initController c2ops).2 = ["TX:5,0,0\n", "TX:5,0,0\n"] := by
    simp [run, step, c2ops, joystick_move, send_data, connect_serial,
      call_save_settings, initController, packet_data_one,
      show toString (5 : ℤ) = "5" from rfl, show toString (7 : ℤ) = "7" from rfl,
      show toString (0 : ℤ) = "0" from rfl, show brakeBit false = 0 from rfl]
  refine ⟨h, ?_⟩
  rw [h]
  simp [List.chain'_cons]

/-- Claim C2 (amended): deduplication is relative to last_packet, which
records the most recent encoded packet whether or not it was
transmitted. Unconditionally, a second send_data call with no
intervening mutation transmits nothing; and along any run of mutating
events whose sends all go out over a connected serial port in serial
mode, starting with no recorded packet, every transmitted packet
differs from the immediately preceding transmitted one. -/
theorem C2_thm :
    (∀ (st : Controller) (r1 r2 : Option String),
      (send_data (send_data st r1).1 r2).2.1 = none) ∧
    (∀ (st : Controller) (ops : List Op),
      st.serial_open = true → st.use_udp = false → st.last_packet = none →
      (∀ op ∈ ops, goodOp op = true) →
      List.Chain' (fun a b => a ≠ b) (run st ops).2) := by
  constructor
  · exact send_data_no_resend
  · intro st ops hs hu hl hgood
    have hch := run_chain_aux ops st hs hu hgood
    rw [hl] at hch
    simpa using hch

/-- Claim C2, witness: C2_thm on the startup state connected in serial
mode, over a two-event good trace, and the unconditional no-resend part
at a concrete state. -/
theorem C2_witness :
    (send_data (send_data c10_state none).1 none).2.1 = none ∧
    List.Chain' (fun a b => a ≠ b)
      (run { initController with serial_open := true }
        [Op.joystick 5 0 none, Op.joystick 7 0 none]).2 :=
  ⟨C2_thm.1 c10_state none none,
    C2_thm.2 { initController with serial_open := true }
      [Op.joystick 5 0 none, Op.joystick 7 0 none]
      rfl rfl rfl (by decide)⟩

end ControlSerial
